import Mathlib

/-!
Verification of the sequenced writer of the schema registry
(src/v/pandaproxy/schema_registry/seq_writer.cc).

The writer serializes mutating schema-registry operations over a
single-partition internal topic.  Pure decision logic from the source is
embedded as Lean functions; external effects (the log client responses,
the fetched record ranges) are passed as explicit inputs.  Components of
the repository whose code is not available here (the store, the applier
`consume_to_store`, and the `sequenced_write` retry loop declared in the
header) are modelled from the specification and marked as such in their
doc comments.
-/

namespace SchemaRegistry

/-! ## Basic data model -/

abbrev Offset := Int
abbrev NodeId := Int
abbrev Subject := String
abbrev SchemaDef := String
abbrev SchemaId := Nat
abbrev SchemaVersion := Nat

/-- Schema type tag; opaque to the writer. -/
inductive SchemaType
  | avro
  | protobuf
  | json
deriving DecidableEq, Repr

/-- Compatibility level enum (settable globally and per subject). -/
inductive CompatibilityLevel
  | none
  | backward
  | backward_transitive
  | forward
  | forward_transitive
  | full
  | full_transitive
deriving DecidableEq, Repr

/-- Kafka error codes that appear in the embedded paths. -/
inductive kafka_error_code
  | none
  | unknown_topic_or_partition
  | unknown_server_error
  | offset_out_of_range
  | not_leader_for_partition
deriving DecidableEq, Repr

/-- Errors surfaced by the writer: kafka exceptions carrying an error
code, store not-found, the retry-budget failure and assertion failures. -/
inductive SRError
  | kafka (ec : kafka_error_code)
  | not_found
  | exhausted_retries
  | assertion_failure
deriving DecidableEq, Repr

/-- Modelled from the spec: the error-kind taxonomy of section 7.
`unknown_topic_or_partition` is its own kind (raised by read-sync when the
log reports no such topic); any other non-success kafka error code from a
log operation is the `backend_error` kind. -/
inductive error_kind
  | unknown_topic_or_partition
  | backend_error
  | not_found
  | compatibility_violation
  | exhausted_retries
  | aborted
deriving DecidableEq, Repr

/-- Modelled from the spec: map a surfaced error to its section-7 kind. -/
def SRError.kind : SRError → error_kind
  | .kafka .unknown_topic_or_partition => .unknown_topic_or_partition
  | .kafka _ => .backend_error
  | .not_found => .not_found
  | .exhausted_retries => .exhausted_retries
  | .assertion_failure => .backend_error

/-! ## Record keys and values (storage.h shapes as used by seq_writer.cc) -/

structure schema_key where
  seq : Offset
  node : NodeId
  sub : Subject
  version : SchemaVersion
deriving DecidableEq, Repr

structure schema_value where
  sub : Subject
  version : SchemaVersion
  type : SchemaType
  id : SchemaId
  schema : SchemaDef
  deleted : Bool
deriving DecidableEq, Repr

structure config_key where
  seq : Offset
  node : NodeId
  sub : Option Subject
deriving DecidableEq, Repr

structure config_value where
  compat : CompatibilityLevel
deriving DecidableEq, Repr

structure delete_subject_key where
  seq : Offset
  node : NodeId
  sub : Subject
deriving DecidableEq, Repr

structure delete_subject_value where
  sub : Subject
  version : SchemaVersion
deriving DecidableEq, Repr

/-- The three typed key variants written to the internal topic. -/
inductive SRKey
  | schema (k : schema_key)
  | config (k : config_key)
  | delete_subject (k : delete_subject_key)
deriving DecidableEq, Repr

/-- The matching typed values. -/
inductive SRValue
  | schema (v : schema_value)
  | config (v : config_value)
  | delete_subject (v : delete_subject_value)
deriving DecidableEq, Repr

/-- A log record: a typed key and either a typed value or a tombstone. -/
abbrev Record := SRKey × Option SRValue

/-- The `seq` field of whichever key variant. -/
def keySeq : SRKey → Offset
  | .schema k => k.seq
  | .config k => k.seq
  | .delete_subject k => k.seq

/-- Key types recorded in sequence markers. -/
inductive seq_marker_key_type
  | schema
  | delete_subject
  | config
deriving DecidableEq, Repr

/-- Sequence marker stored for every applied key, used by permanent
deletion to reconstruct the key to tombstone. -/
structure seq_marker where
  seq : Offset
  node : NodeId
  version : SchemaVersion
  key_type : seq_marker_key_type
deriving DecidableEq, Repr

/-! ## Store (modelled from the spec, sections 4.3 and 4.4) -/

/-- One version entry of a subject. -/
structure SchemaEntry where
  version : SchemaVersion
  type : SchemaType
  id : SchemaId
  schema : SchemaDef
  deleted : Bool
deriving DecidableEq, Repr

/-- Modelled from the spec: the per-subject state of the store. -/
structure SubjectState where
  entries : List SchemaEntry
  markers : List seq_marker
  compat : Option CompatibilityLevel
  deletedAt : Option SchemaVersion
deriving DecidableEq, Repr

def SubjectState.empty : SubjectState :=
  { entries := [], markers := [], compat := Option.none, deletedAt := Option.none }

/-- Modelled from the spec: the in-memory projection of the log that the
writer consults; the real store lives in store.h, which is not part of
the sources here. -/
structure Store where
  subjects : List (Subject × SubjectState)
  globalCompat : CompatibilityLevel
  nextId : SchemaId
deriving DecidableEq, Repr

def Store.findSubject (st : Store) (sub : Subject) : Option SubjectState :=
  (st.subjects.find? (fun p => p.1 == sub)).map Prod.snd

/-- Replace (or create) the state of one subject. -/
def Store.setSubject (st : Store) (sub : Subject) (ss : SubjectState) : Store :=
  if (st.subjects.find? (fun p => p.1 == sub)).isSome then
    { st with subjects := st.subjects.map (fun p => if p.1 == sub then (p.1, ss) else p) }
  else
    { st with subjects := st.subjects ++ [(sub, ss)] }

/-- Result of `Store.project_ids`: a tentative id/version projection. -/
structure insert_result where
  id : SchemaId
  version : SchemaVersion
  inserted : Bool
deriving DecidableEq, Repr

/-- First schema id registered anywhere for the given definition and
type (cross-subject dedup). -/
def Store.lookupDef (st : Store) (defn : SchemaDef) (type : SchemaType) : Option SchemaId :=
  (st.subjects.findSome? (fun p =>
    (p.2.entries.find? (fun e => e.schema == defn && e.type == type)).map (·.id)))

def SubjectState.maxVersion (ss : SubjectState) : SchemaVersion :=
  ss.entries.foldl (fun m e => max m e.version) 0

/-- Modelled from the spec: `project_ids(subject, def, type)` returns
`{id, version, inserted}`; `inserted = false` when the subject already
has this (definition, type), otherwise a fresh version for the subject
and either the globally known id of the definition or a fresh id. -/
def Store.project_ids (st : Store) (sub : Subject) (defn : SchemaDef)
    (type : SchemaType) : insert_result :=
  let ss := (st.findSubject sub).getD SubjectState.empty
  match ss.entries.find? (fun e => e.schema == defn && e.type == type) with
  | some e => { id := e.id, version := e.version, inserted := false }
  | Option.none =>
      let id := (st.lookupDef defn type).getD st.nextId
      { id := id, version := ss.maxVersion + 1, inserted := true }

/-- Modelled from the spec: per-subject compatibility when set, falling
back to the global level; the global level when no subject is given. -/
def Store.get_compatibility (st : Store) (sub : Option Subject) : CompatibilityLevel :=
  match sub with
  | Option.none => st.globalCompat
  | some s => ((st.findSubject s).bind (·.compat)).getD st.globalCompat

/-- Resolved subject schema, as returned by `get_subject_schema`. -/
structure subject_schema where
  id : SchemaId
  type : SchemaType
  definition : SchemaDef
  deleted : Bool
deriving DecidableEq, Repr

/-- Modelled from the spec: look a version of a subject up, failing with
not-found for a missing subject or version. -/
def Store.get_subject_schema (st : Store) (sub : Subject) (version : SchemaVersion)
    (includeDeleted : Bool) : Except SRError subject_schema :=
  match st.findSubject sub with
  | Option.none => .error .not_found
  | some ss =>
      match ss.entries.find? (fun e =>
          e.version == version && (includeDeleted || !e.deleted)) with
      | Option.none => .error .not_found
      | some e => .ok { id := e.id, type := e.type, definition := e.schema, deleted := e.deleted }

/-- Modelled from the spec: all versions of a subject; not-found when the
subject is missing or has no matching versions. -/
def Store.get_versions (st : Store) (sub : Subject) (includeDeleted : Bool) :
    Except SRError (List SchemaVersion) :=
  match st.findSubject sub with
  | Option.none => .error .not_found
  | some ss =>
      let vs := (ss.entries.filter (fun e => includeDeleted || !e.deleted)).map (·.version)
      if vs.isEmpty then .error .not_found else .ok vs

/-- Modelled from the spec: whether the subject is flagged soft-deleted. -/
def Store.is_subject_deleted (st : Store) (sub : Subject) : Bool :=
  ((st.findSubject sub).map (·.deletedAt.isSome)).getD false

/-- Modelled from the spec: the sequence markers recorded for a subject. -/
def Store.get_subject_written_at (st : Store) (sub : Subject) :
    Except SRError (List seq_marker) :=
  match st.findSubject sub with
  | Option.none => .error .not_found
  | some ss => .ok ss.markers

/-- Modelled from the spec: the sequence markers recorded for one version
of a subject. -/
def Store.get_subject_version_written_at (st : Store) (sub : Subject)
    (version : SchemaVersion) : Except SRError (List seq_marker) :=
  match st.findSubject sub with
  | Option.none => .error .not_found
  | some ss =>
      let ms := ss.markers.filter (fun m =>
        m.key_type == seq_marker_key_type.schema && m.version == version)
      if ms.isEmpty then .error .not_found else .ok ms

/-- The sequence marker the applier records for a key applied at
`offset` (modelled from the spec, section 4.3). -/
def markerOf (offset : Offset) : SRKey → seq_marker
  | .schema k => { seq := offset, node := k.node, version := k.version, key_type := .schema }
  | .config k => { seq := offset, node := k.node, version := 0, key_type := .config }
  | .delete_subject k =>
      { seq := offset, node := k.node, version := 0, key_type := .delete_subject }

/-- Upsert one version entry into a list of entries. -/
def upsertEntry (es : List SchemaEntry) (e : SchemaEntry) : List SchemaEntry :=
  if (es.find? (fun x => x.version == e.version)).isSome then
    es.map (fun x => if x.version == e.version then e else x)
  else
    es ++ [e]

/-- Modelled from the spec: the applier (`consume_to_store`) key policy of
section 4.3, a pure function from (offset, key, value-or-tombstone) to a
store mutation.  It records the sequence marker of any received key, then
acts on the value: upsert version / remove version, set compatibility /
clear it, mark soft-deletion / clear the marker. -/
def Store.applyRecord (st : Store) (offset : Offset) (k : SRKey) (v : Option SRValue) : Store :=
  match k, v with
  | .schema key, some (.schema val) =>
      let ss := (st.findSubject key.sub).getD SubjectState.empty
      let entry : SchemaEntry :=
        { version := val.version, type := val.type, id := val.id
          schema := val.schema, deleted := val.deleted }
      st.setSubject key.sub
        { ss with entries := upsertEntry ss.entries entry
                  markers := ss.markers ++ [markerOf offset k] }
  | .schema key, _ =>
      let ss := (st.findSubject key.sub).getD SubjectState.empty
      st.setSubject key.sub
        { ss with entries := ss.entries.filter (fun e => !(e.version == key.version))
                  markers := ss.markers ++ [markerOf offset k] }
  | .config key, some (.config val) =>
      match key.sub with
      | Option.none => { st with globalCompat := val.compat }
      | some s =>
          let ss := (st.findSubject s).getD SubjectState.empty
          st.setSubject s
            { ss with compat := some val.compat
                      markers := ss.markers ++ [markerOf offset k] }
  | .config key, _ =>
      match key.sub with
      | Option.none => st
      | some s =>
          let ss := (st.findSubject s).getD SubjectState.empty
          st.setSubject s
            { ss with compat := Option.none
                      markers := ss.markers ++ [markerOf offset k] }
  | .delete_subject key, some (.delete_subject val) =>
      let ss := (st.findSubject key.sub).getD SubjectState.empty
      st.setSubject key.sub
        { ss with deletedAt := some val.version
                  markers := ss.markers ++ [markerOf offset k] }
  | .delete_subject key, _ =>
      let ss := (st.findSubject key.sub).getD SubjectState.empty
      st.setSubject key.sub
        { ss with deletedAt := Option.none
                  markers := ss.markers ++ [markerOf offset k] }

/-! ## Writer state and offset advancement (seq_writer.cc) -/

/-- The coordinator-shard state of the writer: its store replica and the
highest applied offset. -/
structure SeqWriterState where
  store : Store
  loaded_offset : Offset
deriving DecidableEq, Repr

/-- `seq_writer::advance_offset_inner` (seq_writer.cc lines 112 to 127):
take the new offset only when it is larger than the loaded one. -/
def advance_offset_inner (loaded offset : Offset) : Offset :=
  if loaded < offset then offset else loaded

/-- Apply one record through the applier and then advance the loaded
offset, as the success paths of the write methods do. -/
def SeqWriterState.applyAndAdvance (st : SeqWriterState) (offset : Offset)
    (k : SRKey) (v : Option SRValue) : SeqWriterState :=
  { store := st.store.applyRecord offset k v
    loaded_offset := advance_offset_inner st.loaded_offset offset }

/-! ## produce_and_check (seq_writer.cc lines 80 to 104) -/

/-- The produce response of the log client for one partition. -/
structure partition_produce_response where
  error_code : kafka_error_code
  error_message : Option String
  base_offset : Offset
deriving DecidableEq, Repr

/-- `seq_writer::produce_and_check`: throw on a non-zero produce error,
otherwise report whether the batch landed at the predicted offset. -/
def produce_and_check (write_at : Offset) (res : partition_produce_response) :
    Except SRError Bool :=
  if res.error_code ≠ kafka_error_code.none then
    .error (.kafka res.error_code)
  else
    .ok (res.base_offset == write_at)

/-! ## wait_for and read_sync (seq_writer.cc lines 30 to 72) -/

/-- The record range the log client serves for a fetch of
`[lo, hi)`: the log is a list indexed by offset from 0. -/
def fetch_range (log : List Record) (lo hi : Offset) : List (Offset × Record) :=
  log.enum.filterMap (fun p =>
    if lo ≤ (p.1 : Int) ∧ (p.1 : Int) < hi then some ((p.1 : Int), p.2) else Option.none)

/-- Feed fetched records through the applier; after each applied record
the loaded offset is advanced (spec section 4.3). -/
def consume_records (st : SeqWriterState) (recs : List (Offset × Record)) : SeqWriterState :=
  recs.foldl (fun s r => s.applyAndAdvance r.1 r.2.1 r.2.2) st

/-- `seq_writer::wait_for` (seq_writer.cc lines 49 to 72): when `offset`
is beyond the loaded offset, fetch `[loaded + 1, offset + 1)` and consume
it into the store; otherwise return immediately. -/
def wait_for (log : List Record) (offset : Offset) (st : SeqWriterState) : SeqWriterState :=
  if offset > st.loaded_offset then
    consume_records st (fetch_range log (st.loaded_offset + 1) (offset + 1))
  else
    st

/-- One partition of a list-offsets response. -/
structure partition_offset_response where
  offset : Offset
  error_code : kafka_error_code
deriving DecidableEq, Repr

/-- One topic of a list-offsets response. -/
structure topic_offset_response where
  partitions : List partition_offset_response
deriving DecidableEq, Repr

/-- A list-offsets response of the log client. -/
structure list_offsets_response where
  topics : List topic_offset_response
deriving DecidableEq, Repr

/-- The validation and offset computation of `seq_writer::read_sync`
(seq_writer.cc lines 30 to 47): reject a response that does not have
exactly one topic with exactly one partition with
`unknown_topic_or_partition`; rethrow a partition error code; otherwise
the offset handed to `wait_for` is the end offset minus one. -/
def read_sync_offset (resp : list_offsets_response) : Except SRError Offset :=
  match resp.topics with
  | [t] =>
      match t.partitions with
      | [p] =>
          if p.error_code ≠ kafka_error_code.none then
            .error (.kafka p.error_code)
          else
            .ok (p.offset - 1)
      | _ => .error (.kafka .unknown_topic_or_partition)
  | _ => .error (.kafka .unknown_topic_or_partition)

/-- `seq_writer::read_sync`: validate the list-offsets response and catch
the store up to the tail via `wait_for`. -/
def read_sync (log : List Record) (resp : list_offsets_response) (st : SeqWriterState) :
    Except SRError SeqWriterState :=
  match read_sync_offset resp with
  | .error e => .error e
  | .ok off => .ok (wait_for log off st)

/-! ## The op-specific write closures (seq_writer.cc lines 129 to 306)

Each closure takes the predicted offset `write_at`, the writer state and
the produce response the log client would return for its batch, and
yields the op result (`none` is the retry sentinel), the state after the
attempt, and the record the attempt produced (`none` when the op was a
no-op and nothing was written). -/

/-- The `do_write` closure of `seq_writer::write_subject_version`
(seq_writer.cc lines 129 to 183). -/
def write_subject_version_do_write (nodeId : NodeId) (sub : Subject) (defn : SchemaDef)
    (type : SchemaType) (write_at : Offset) (st : SeqWriterState)
    (resp : partition_produce_response) :
    Except SRError (Option SchemaId × SeqWriterState × Option Record) :=
  let projected := st.store.project_ids sub defn type
  if !projected.inserted then
    .ok (some projected.id, st, Option.none)
  else
    let key : schema_key :=
      { seq := write_at, node := nodeId, sub := sub, version := projected.version }
    let value : schema_value :=
      { sub := sub, version := projected.version, type := type
        id := projected.id, schema := defn, deleted := false }
    match produce_and_check write_at resp with
    | .error e => .error e
    | .ok true =>
        .ok (some projected.id,
             st.applyAndAdvance write_at (.schema key) (some (.schema value)),
             some (.schema key, some (.schema value)))
    | .ok false =>
        .ok (Option.none, st, some (.schema key, some (.schema value)))

/-- The `do_write` closure of `seq_writer::write_config`
(seq_writer.cc lines 185 to 228). -/
def write_config_do_write (nodeId : NodeId) (sub : Option Subject)
    (compat : CompatibilityLevel) (write_at : Offset) (st : SeqWriterState)
    (resp : partition_produce_response) :
    Except SRError (Option Bool × SeqWriterState × Option Record) :=
  let existing := st.store.get_compatibility sub
  if existing = compat then
    .ok (some false, st, Option.none)
  else
    let key : config_key := { seq := write_at, node := nodeId, sub := sub }
    let value : config_value := { compat := compat }
    match produce_and_check write_at resp with
    | .error e => .error e
    | .ok true =>
        .ok (some true,
             st.applyAndAdvance write_at (.config key) (some (.config value)),
             some (.config key, some (.config value)))
    | .ok false =>
        .ok (Option.none, st, some (.config key, some (.config value)))

/-- The `do_write` closure of `seq_writer::delete_subject_version`
(seq_writer.cc lines 231 to 268): rewrite the version record with
`deleted = yes`. -/
def delete_subject_version_do_write (nodeId : NodeId) (sub : Subject)
    (version : SchemaVersion) (write_at : Offset) (st : SeqWriterState)
    (resp : partition_produce_response) :
    Except SRError (Option Bool × SeqWriterState × Option Record) :=
  match st.store.get_subject_schema sub version true with
  | .error e => .error e
  | .ok ss =>
      let key : schema_key :=
        { seq := write_at, node := nodeId, sub := sub, version := version }
      let value : schema_value :=
        { sub := sub, version := version, type := ss.type
          id := ss.id, schema := ss.definition, deleted := true }
      match produce_and_check write_at resp with
      | .error e => .error e
      | .ok true =>
          .ok (some true,
               st.applyAndAdvance write_at (.schema key) (some (.schema value)),
               some (.schema key, some (.schema value)))
      | .ok false =>
          .ok (Option.none, st, some (.schema key, some (.schema value)))

/-- The `do_write` closure of `seq_writer::delete_subject_impermanent`
(seq_writer.cc lines 270 to 306): a no-op returning the current versions
when the subject is already flagged deleted, otherwise one
`delete_subject` record at the last version. -/
def delete_subject_impermanent_do_write (nodeId : NodeId) (sub : Subject)
    (write_at : Offset) (st : SeqWriterState) (resp : partition_produce_response) :
    Except SRError (Option (List SchemaVersion) × SeqWriterState × Option Record) :=
  match st.store.get_versions sub true with
  | .error e => .error e
  | .ok versions =>
      if st.store.is_subject_deleted sub then
        .ok (some versions, st, Option.none)
      else
        match versions.getLast? with
        | Option.none => .error .assertion_failure
        | some version =>
            let key : delete_subject_key := { seq := write_at, node := nodeId, sub := sub }
            let value : delete_subject_value := { sub := sub, version := version }
            match produce_and_check write_at resp with
            | .error e => .error e
            | .ok true =>
                .ok (some versions,
                     st.applyAndAdvance write_at (.delete_subject key)
                       (some (.delete_subject value)),
                     some (.delete_subject key, some (.delete_subject value)))
            | .ok false =>
                .ok (Option.none, st, some (.delete_subject key, some (.delete_subject value)))

/-- The record `write_subject_version` produces for a fresh projection
with the given id and version: key with `seq = w`, value not deleted. -/
def wsv_record (nodeId : NodeId) (sub : Subject) (defn : SchemaDef) (type : SchemaType)
    (id : SchemaId) (version : SchemaVersion) (w : Offset) : Record :=
  (.schema { seq := w, node := nodeId, sub := sub, version := version },
    some (.schema { sub := sub, version := version, type := type, id := id,
                    schema := defn, deleted := false }))

/-- The record `write_config` produces. -/
def wc_record (nodeId : NodeId) (sub : Option Subject) (compat : CompatibilityLevel)
    (w : Offset) : Record :=
  (.config { seq := w, node := nodeId, sub := sub },
    some (.config { compat := compat }))

/-- The record `delete_subject_version` produces: the resolved schema
rewritten with `deleted = yes`. -/
def dsv_record (nodeId : NodeId) (sub : Subject) (version : SchemaVersion)
    (ss : subject_schema) (w : Offset) : Record :=
  (.schema { seq := w, node := nodeId, sub := sub, version := version },
    some (.schema { sub := sub, version := version, type := ss.type, id := ss.id,
                    schema := ss.definition, deleted := true }))

/-- The record `delete_subject_impermanent` produces at the last
version. -/
def dsi_record (nodeId : NodeId) (sub : Subject) (last : SchemaVersion)
    (w : Offset) : Record :=
  (.delete_subject { seq := w, node := nodeId, sub := sub },
    some (.delete_subject { sub := sub, version := last }))

/-! ## The sequenced-write retry loop (modelled from the spec) -/

/-- Modelled from the spec: the retry budget of the sequenced-write loop,
design default 5. -/
def retry_budget : Nat := 5

/-- Modelled from the spec: the body of `seq_writer::sequenced_write`
(declared in seq_writer.h, not among the sources here), section 4.1:
catch up to the tail, predict `write_at = loaded_offset + 1`, run the
op closure; a `none` result is the retry sentinel and loops again, a
`some` result is returned; when the budget runs out the operation fails
with `exhausted_retries`.  The closure `f` and the catch-up `cu` receive
the attempt index so that per-attempt environments (produce responses,
log tails) can be expressed. -/
def sequenced_write_go {α : Type}
    (f : Nat → Offset → SeqWriterState → Except SRError (Option α × SeqWriterState))
    (cu : Nat → SeqWriterState → SeqWriterState) :
    Nat → Nat → SeqWriterState → Except SRError α
  | 0, _, _ => .error .exhausted_retries
  | budget + 1, k, st =>
      let st1 := cu k st
      match f k (st1.loaded_offset + 1) st1 with
      | .error e => .error e
      | .ok (some a, _) => .ok a
      | .ok (Option.none, st2) => sequenced_write_go f cu budget (k + 1) st2

/-- Modelled from the spec: `sequenced_write` with the default budget. -/
def sequenced_write {α : Type}
    (f : Nat → Offset → SeqWriterState → Except SRError (Option α × SeqWriterState))
    (cu : Nat → SeqWriterState → SeqWriterState) (st : SeqWriterState) :
    Except SRError α :=
  sequenced_write_go f cu retry_budget 0 st

/-! ## Permanent deletion (seq_writer.cc lines 312 to 410) -/

/-- The tombstone key rebuilt from one sequence marker in
`delete_subject_permanent_inner`: same seq, node and key type as the
marker recorded. -/
def tombstone_key (sub : Subject) (s : seq_marker) : SRKey :=
  match s.key_type with
  | .schema => .schema { seq := s.seq, node := s.node, sub := sub, version := s.version }
  | .delete_subject => .delete_subject { seq := s.seq, node := s.node, sub := sub }
  | .config => .config { seq := s.seq, node := s.node, sub := some sub }

/-- The replay loop at the end of `delete_subject_permanent_inner`
(seq_writer.cc lines 391 to 407): apply each tombstone at consecutive
offsets starting from the base offset of the produced batch, advancing
the loaded offset after each one. -/
def replay_tombstones (st : SeqWriterState) (offset : Offset) :
    List SRKey → SeqWriterState
  | [] => st
  | k :: ks => replay_tombstones (st.applyAndAdvance offset k Option.none) (offset + 1) ks

/-- `seq_writer::delete_subject_permanent_inner` (seq_writer.cc lines 320
to 410): collect the sequence markers of the subject (or of one version),
rebuild a tombstone key per marker, require the batch non-empty (the
source asserts this), produce the batch without any offset check, then
replay the tombstones locally.  Besides the returned version list and the
final state, the embedding exposes the tombstoned keys of the batch. -/
def delete_subject_permanent_inner (sub : Subject) (version : Option SchemaVersion)
    (st : SeqWriterState) (resp : partition_produce_response) :
    Except SRError (List SchemaVersion × SeqWriterState × List SRKey) :=
  match (match version with
         | some v => st.store.get_subject_version_written_at sub v
         | Option.none => st.store.get_subject_written_at sub) with
  | .error e => .error e
  | .ok sequences =>
      if (sequences.map (tombstone_key sub)).isEmpty then
        .error .assertion_failure
      else if resp.error_code ≠ kafka_error_code.none then
        .error (.kafka resp.error_code)
      else
        .ok ([], replay_tombstones st resp.base_offset (sequences.map (tombstone_key sub)),
            sequences.map (tombstone_key sub))

/-- The offset/record pairs the replay loop of permanent deletion feeds
through the applier: tombstones at consecutive offsets from `base`. -/
def tombstone_offsets (base : Offset) : List SRKey → List (Offset × Record)
  | [] => []
  | k :: ks => (base, (k, Option.none)) :: tombstone_offsets (base + 1) ks

/-! ## Concrete fixtures used to exercise the definitions -/

/-- An empty store with global compatibility `backward`. -/
def store0 : Store :=
  { subjects := [], globalCompat := .backward, nextId := 1 }

/-- Writer state over the empty store, nothing loaded yet. -/
def st0 : SeqWriterState :=
  { store := store0, loaded_offset := -1 }

/-- One registered version of subject s1. -/
def entryA : SchemaEntry :=
  { version := 1, type := .avro, id := 1, schema := "S", deleted := false }

/-- The sequence marker of that registration. -/
def markerA : seq_marker :=
  { seq := 0, node := 0, version := 1, key_type := .schema }

/-- Subject state holding the one entry and its marker. -/
def subjStateA : SubjectState :=
  { entries := [entryA], markers := [markerA], compat := Option.none
    deletedAt := Option.none }

/-- A store that knows subject s1 at version 1. -/
def store1 : Store :=
  { subjects := [("s1", subjStateA)], globalCompat := .backward, nextId := 2 }

/-- Writer state over `store1` with offset 0 applied. -/
def st1 : SeqWriterState :=
  { store := store1, loaded_offset := 0 }

/-- A successful produce response landing at offset 1. -/
def respOk1 : partition_produce_response :=
  { error_code := .none, error_message := Option.none, base_offset := 1 }

/-- A successful produce response landing at offset 7. -/
def respOk7 : partition_produce_response :=
  { error_code := .none, error_message := Option.none, base_offset := 7 }

/-- A successful produce response landing at offset 0. -/
def respOk0 : partition_produce_response :=
  { error_code := .none, error_message := Option.none, base_offset := 0 }

/-! ## Helper lemmas -/

theorem advance_offset_inner_eq_max (l o : Offset) :
    advance_offset_inner l o = max l o := by
  unfold advance_offset_inner
  rcases le_or_lt o l with h | h
  · rw [if_neg (not_lt.mpr h), max_eq_left h]
  · rw [if_pos h, max_eq_right h.le]

theorem le_advance_offset_inner (l o : Offset) : l ≤ advance_offset_inner l o := by
  unfold advance_offset_inner
  split
  · exact le_of_lt (by assumption)
  · exact le_refl l

theorem applyAndAdvance_loaded (st : SeqWriterState) (off : Offset) (k : SRKey)
    (v : Option SRValue) :
    (st.applyAndAdvance off k v).loaded_offset = advance_offset_inner st.loaded_offset off :=
  rfl

theorem consume_records_mono (recs : List (Offset × Record)) :
    ∀ st : SeqWriterState, st.loaded_offset ≤ (consume_records st recs).loaded_offset := by
  induction recs with
  | nil => intro st; exact le_refl _
  | cons r rs ih =>
      intro st
      have h1 : st.loaded_offset ≤ (st.applyAndAdvance r.1 r.2.1 r.2.2).loaded_offset := by
        rw [applyAndAdvance_loaded]
        exact le_advance_offset_inner _ _
      have h2 := ih (st.applyAndAdvance r.1 r.2.1 r.2.2)
      simp only [consume_records, List.foldl_cons] at h2 ⊢
      exact le_trans h1 h2

theorem replay_tombstones_eq_consume (keys : List SRKey) :
    ∀ (st : SeqWriterState) (off : Offset),
      replay_tombstones st off keys = consume_records st (tombstone_offsets off keys) := by
  induction keys with
  | nil => intro st off; rfl
  | cons k ks ih =>
      intro st off
      simp only [replay_tombstones, tombstone_offsets, consume_records, List.foldl_cons]
      exact ih _ _

theorem tombstone_offsets_getElem? (keys : List SRKey) :
    ∀ (base : Offset) (i : Nat),
      (tombstone_offsets base keys)[i]? =
        (keys[i]?).map (fun k => (base + (i : Int), (k, (Option.none : Option SRValue)))) := by
  induction keys with
  | nil => intro base i; simp [tombstone_offsets]
  | cons k ks ih =>
      intro base i
      cases i with
      | zero => simp [tombstone_offsets]
      | succ n =>
          simp only [tombstone_offsets, List.getElem?_cons_succ]
          rw [ih (base + 1) n]
          cases h : ks[n]? with
          | none => rfl
          | some k2 =>
              have heq : base + 1 + (n : Int) = base + ((n + 1 : Nat) : Int) := by
                push_cast
                ring
              simp [heq]

theorem find?_map_replace (s : Subject) (ss : SubjectState) :
    ∀ l : List (Subject × SubjectState),
      (l.find? (fun p => p.1 == s)).isSome = true →
      ((l.map (fun p => if p.1 == s then (p.1, ss) else p)).find? (fun p => p.1 == s))
        = some (s, ss) := by
  intro l
  induction l with
  | nil => intro h; simp [List.find?] at h
  | cons a l ih =>
      intro h
      cases hb : (a.1 == s) with
      | true =>
          have ha : a.1 = s := eq_of_beq hb
          rw [List.map_cons, if_pos hb]
          have hstep :
              List.find? (fun p => p.1 == s)
                ((a.1, ss) :: List.map (fun p => if (p.1 == s) = true then (p.1, ss) else p) l)
                = some (a.1, ss) :=
            List.find?_cons_of_pos _ hb
          rw [hstep, ha]
      | false =>
          have hb2 : ¬((a.1 == s) = true) := by rw [hb]; exact Bool.false_ne_true
          rw [List.map_cons, if_neg hb2]
          have hstep :
              List.find? (fun p => p.1 == s)
                (a :: List.map (fun p => if (p.1 == s) = true then (p.1, ss) else p) l)
                = List.find? (fun p => p.1 == s)
                    (List.map (fun p => if (p.1 == s) = true then (p.1, ss) else p) l) :=
            List.find?_cons_of_neg _ hb2
          rw [hstep]
          apply ih
          have hstep2 :
              List.find? (fun p => p.1 == s) (a :: l)
                = List.find? (fun p => p.1 == s) l :=
            List.find?_cons_of_neg _ hb2
          rwa [hstep2] at h

theorem findSubject_setSubject (st : Store) (s : Subject) (ss : SubjectState) :
    (st.setSubject s ss).findSubject s = some ss := by
  unfold Store.setSubject Store.findSubject
  by_cases h : (st.subjects.find? (fun p => p.1 == s)).isSome = true
  · rw [if_pos h]
    simp only [find?_map_replace s ss st.subjects h, Option.map]
  · rw [if_neg h]
    have hnone : st.subjects.find? (fun p => p.1 == s) = Option.none := by
      cases hf : st.subjects.find? (fun p => p.1 == s) with
      | none => rfl
      | some v => rw [hf] at h; simp at h
    simp only [List.find?_append, hnone, Option.none_or]
    simp [List.find?]

/-- After the applier processes a config record for `csub` carrying level
`c`, the compatibility the store reports for `csub` is `c`. -/
theorem get_compatibility_after_apply (st : Store) (off : Offset) (cseq : Offset)
    (cnode : NodeId) (csub : Option Subject) (c : CompatibilityLevel) :
    (st.applyRecord off (.config { seq := cseq, node := cnode, sub := csub })
        (some (.config { compat := c }))).get_compatibility csub = c := by
  cases csub with
  | none => rfl
  | some s =>
      simp only [Store.applyRecord, Store.get_compatibility]
      rw [findSubject_setSubject]
      rfl

/-- Membership in a fetched range: exactly the log records whose offset
lies in `[lo, hi)`. -/
theorem fetch_range_mem (log : List Record) (lo hi o : Offset) (r : Record) :
    (o, r) ∈ fetch_range log lo hi ↔
      lo ≤ o ∧ o < hi ∧ ∃ i : Nat, (i : Int) = o ∧ log[i]? = some r := by
  unfold fetch_range
  rw [List.mem_filterMap]
  constructor
  · rintro ⟨p, hmem, hf⟩
    obtain ⟨i, rec⟩ := p
    replace hf :
        (if lo ≤ ((i : Int)) ∧ ((i : Int)) < hi
         then some (((i : Int)), rec) else Option.none) = some (o, r) := hf
    by_cases hc : lo ≤ ((i : Int)) ∧ ((i : Int)) < hi
    · rw [if_pos hc] at hf
      injection hf with hf2
      rw [Prod.mk.injEq] at hf2
      obtain ⟨h1, h2⟩ := hf2
      subst h2
      exact ⟨h1 ▸ hc.1, h1 ▸ hc.2, i, h1, List.mk_mem_enum_iff_getElem?.mp hmem⟩
    · rw [if_neg hc] at hf
      exact absurd hf (by simp)
  · rintro ⟨h1, h2, i, hio, hget⟩
    refine ⟨(i, r), List.mk_mem_enum_iff_getElem?.mpr hget, ?_⟩
    show (if lo ≤ ((i : Int)) ∧ ((i : Int)) < hi
          then some (((i : Int)), r) else Option.none) = some (o, r)
    rw [if_pos ⟨by rw [hio]; exact h1, by rw [hio]; exact h2⟩, hio]

/-- One unfolding step of the sequenced-write loop: each attempt runs the
closure at the predicted offset `loaded_offset + 1` of the caught-up
state. -/
theorem sequenced_write_go_succ {α : Type}
    (f : Nat → Offset → SeqWriterState → Except SRError (Option α × SeqWriterState))
    (cu : Nat → SeqWriterState → SeqWriterState) (budget k : Nat) (st : SeqWriterState) :
    sequenced_write_go f cu (budget + 1) k st =
      match f k ((cu k st).loaded_offset + 1) (cu k st) with
      | .error e => .error e
      | .ok (some a, _) => .ok a
      | .ok (Option.none, st2) => sequenced_write_go f cu budget (k + 1) st2 := rfl

theorem sequenced_write_go_always_retry {α : Type}
    (f : Nat → Offset → SeqWriterState → Except SRError (Option α × SeqWriterState))
    (cu : Nat → SeqWriterState → SeqWriterState)
    (h : ∀ k w s, ∃ s2, f k w s = .ok (Option.none, s2)) :
    ∀ (budget k : Nat) (st : SeqWriterState),
      sequenced_write_go f cu budget k st = .error .exhausted_retries := by
  intro budget
  induction budget with
  | zero => intro k st; rfl
  | succ b ih =>
      intro k st
      rw [sequenced_write_go_succ]
      obtain ⟨s2, hf⟩ := h k ((cu k st).loaded_offset + 1) (cu k st)
      rw [hf]
      exact ih (k + 1) s2

/-! ## Claim theorems -/

/-- Claim C10: whenever `delete_subject_permanent` completes successfully
it returns the empty list of versions, whatever the subject, the optional
version argument, the state or the produce response. -/
theorem C10_delete_subject_permanent_returns_empty
    (sub : Subject) (version : Option SchemaVersion) (st : SeqWriterState)
    (resp : partition_produce_response) (vs : List SchemaVersion)
    (st2 : SeqWriterState) (keys : List SRKey)
    (h : delete_subject_permanent_inner sub version st resp = .ok (vs, st2, keys)) :
    vs = [] := by
  unfold delete_subject_permanent_inner at h
  split at h
  · exact Except.noConfusion h
  · split at h
    · exact Except.noConfusion h
    · split at h
      · exact Except.noConfusion h
      · rw [Except.ok.injEq, Prod.mk.injEq] at h
        exact h.1.symm

/-- Witness for C10 at a concrete successful permanent deletion. -/
theorem C10_delete_subject_permanent_returns_empty_witness :
    ([] : List SchemaVersion) = [] :=
  C10_delete_subject_permanent_returns_empty "s1" Option.none st1 respOk1 []
    (replay_tombstones st1 1 [tombstone_key "s1" markerA]) [tombstone_key "s1" markerA] rfl

/-- Claim C7: `write_subject_version` is idempotent: when the store
projection reports the (definition, type) pair already known for the
subject (`inserted = false`), the operation returns the existing schema
id without producing any record and without changing the state. -/
theorem C7_write_subject_version_idempotent
    (nodeId : NodeId) (sub : Subject) (defn : SchemaDef) (type : SchemaType)
    (write_at : Offset) (st : SeqWriterState) (resp : partition_produce_response)
    (h : (st.store.project_ids sub defn type).inserted = false) :
    write_subject_version_do_write nodeId sub defn type write_at st resp
      = .ok (some (st.store.project_ids sub defn type).id, st, Option.none) := by
  simp [write_subject_version_do_write, h]

/-- Witness for C7: re-registering the known schema of s1 returns its id
1 without writing. -/
theorem C7_write_subject_version_idempotent_witness :
    write_subject_version_do_write 0 "s1" "S" SchemaType.avro 1 st1 respOk1
      = .ok (some (st1.store.project_ids "s1" "S" SchemaType.avro).id, st1, Option.none) :=
  C7_write_subject_version_idempotent 0 "s1" "S" SchemaType.avro 1 st1 respOk1 rfl

/-- Claim C4: the sequenced-write retry loop is bounded by the retry
budget (default 5): an attempt that succeeds is returned within the
budget, and when every attempt asks for a retry the loop stops with
`exhausted_retries` once the budget is spent; the loop always
terminates because it structurally consumes the budget. -/
theorem C4_sequenced_write_retry_budget :
    retry_budget = 5 ∧
    (∀ (α : Type)
        (f : Nat → Offset → SeqWriterState → Except SRError (Option α × SeqWriterState))
        (cu : Nat → SeqWriterState → SeqWriterState) (st : SeqWriterState),
        (∀ k w s, ∃ s2, f k w s = .ok (Option.none, s2)) →
        sequenced_write f cu st = .error .exhausted_retries) ∧
    (∀ (α : Type)
        (f : Nat → Offset → SeqWriterState → Except SRError (Option α × SeqWriterState))
        (cu : Nat → SeqWriterState → SeqWriterState) (budget k : Nat)
        (st : SeqWriterState) (a : α) (st2 : SeqWriterState),
        f k ((cu k st).loaded_offset + 1) (cu k st) = .ok (some a, st2) →
        sequenced_write_go f cu (budget + 1) k st = .ok a) := by
  refine ⟨rfl, ?_, ?_⟩
  · intro α f cu st h
    exact sequenced_write_go_always_retry f cu h retry_budget 0 st
  · intro α f cu budget k st a st2 hf
    rw [sequenced_write_go_succ, hf]

/-- Witness for C4: a closure that always returns the retry sentinel
exhausts the budget; one that succeeds at once returns its value. -/
theorem C4_sequenced_write_retry_budget_witness :
    sequenced_write
        (fun (_ : Nat) (_ : Offset) (s : SeqWriterState) =>
          (.ok (Option.none, s) : Except SRError (Option Bool × SeqWriterState)))
        (fun _ s => s) st1 = .error .exhausted_retries ∧
    sequenced_write_go
        (fun (_ : Nat) (_ : Offset) (s : SeqWriterState) =>
          (.ok (some true, s) : Except SRError (Option Bool × SeqWriterState)))
        (fun _ s => s) 1 0 st1 = .ok true :=
  ⟨C4_sequenced_write_retry_budget.2.1 Bool _ _ st1 (fun _ _ s => ⟨s, rfl⟩),
   C4_sequenced_write_retry_budget.2.2 Bool _ _ 0 0 st1 true st1 rfl⟩

/-- Claim C8: `wait_for(offset)` returns immediately and changes nothing
when `offset` is at most the loaded offset; otherwise it consumes exactly
the fetched range `[loaded_offset + 1, offset + 1)`, feeding every record
of that range through the applier. -/
theorem C8_wait_for_fetches_exact_range :
    (∀ (log : List Record) (off : Offset) (st : SeqWriterState),
        off ≤ st.loaded_offset → wait_for log off st = st) ∧
    (∀ (log : List Record) (off : Offset) (st : SeqWriterState),
        st.loaded_offset < off →
          wait_for log off st
            = consume_records st (fetch_range log (st.loaded_offset + 1) (off + 1))) ∧
    (∀ (log : List Record) (lo hi o : Offset) (r : Record),
        (o, r) ∈ fetch_range log lo hi ↔
          lo ≤ o ∧ o < hi ∧ ∃ i : Nat, (i : Int) = o ∧ log[i]? = some r) := by
  refine ⟨?_, ?_, fetch_range_mem⟩
  · intro log off st h
    unfold wait_for
    rw [if_neg (not_lt.mpr h)]
  · intro log off st h
    unfold wait_for
    rw [if_pos h]

/-- Witness for C8: a clean wait returns the state unchanged; a dirty
wait consumes the fetched range. -/
theorem C8_wait_for_fetches_exact_range_witness :
    wait_for [] 0 st1 = st1 ∧
    wait_for [] 2 st1 = consume_records st1 (fetch_range [] 1 3) :=
  ⟨C8_wait_for_fetches_exact_range.1 [] 0 st1 (by decide),
   C8_wait_for_fetches_exact_range.2.1 [] 2 st1 (by decide)⟩

/-- Claim C5, counterexample: a list-offsets response with no topic makes
`read_sync` fail with the `unknown_topic_or_partition` kind, not with the
`backend_error` kind the claim names. -/
theorem C5_read_sync_backend_error_counterexample :
    read_sync [] { topics := [] } st1 = .error (.kafka .unknown_topic_or_partition) ∧
    SRError.kind (.kafka .unknown_topic_or_partition) ≠ error_kind.backend_error :=
  ⟨rfl, by decide⟩

/-- Claim C5 (amended): `read_sync` fails with
`unknown_topic_or_partition` when the list-offsets response does not have
exactly one topic with exactly one partition; it propagates the
partition's error code when that code is not `none`; and on a well-formed
response it calls `wait_for(end_offset - 1)` and returns normally. -/
theorem C5_read_sync_validation :
    (∀ (log : List Record) (st : SeqWriterState) (ts : List topic_offset_response),
        ts.length ≠ 1 →
        read_sync log { topics := ts } st = .error (.kafka .unknown_topic_or_partition)) ∧
    (∀ (log : List Record) (st : SeqWriterState) (ps : List partition_offset_response),
        ps.length ≠ 1 →
        read_sync log { topics := [{ partitions := ps }] } st
          = .error (.kafka .unknown_topic_or_partition)) ∧
    (∀ (log : List Record) (st : SeqWriterState) (p : partition_offset_response),
        p.error_code ≠ kafka_error_code.none →
        read_sync log { topics := [{ partitions := [p] }] } st
          = .error (.kafka p.error_code)) ∧
    (∀ (log : List Record) (st : SeqWriterState) (p : partition_offset_response),
        p.error_code = kafka_error_code.none →
        read_sync log { topics := [{ partitions := [p] }] } st
          = .ok (wait_for log (p.offset - 1) st)) := by
  refine ⟨?_, ?_, ?_, ?_⟩
  · intro log st ts h
    cases ts with
    | nil => rfl
    | cons a l =>
        cases l with
        | nil => exact absurd rfl h
        | cons b m => rfl
  · intro log st ps h
    cases ps with
    | nil => rfl
    | cons a l =>
        cases l with
        | nil => exact absurd rfl h
        | cons b m => rfl
  · intro log st p h
    simp only [read_sync, read_sync_offset]
    rw [if_pos h]
  · intro log st p h
    simp only [read_sync, read_sync_offset]
    rw [if_neg (not_not_intro h)]

/-- Witness for C5: the partition's own error code is propagated, and a
well-formed response with end offset 5 waits for offset 4. -/
theorem C5_read_sync_validation_witness :
    read_sync []
        { topics := [{ partitions := [{ offset := 5, error_code := .offset_out_of_range }] }] }
        st1 = .error (.kafka .offset_out_of_range) ∧
    read_sync []
        { topics := [{ partitions := [{ offset := 5, error_code := .none }] }] }
        st1 = .ok (wait_for [] 4 st1) :=
  ⟨C5_read_sync_validation.2.2.1 [] st1
      { offset := 5, error_code := .offset_out_of_range } (by decide),
   C5_read_sync_validation.2.2.2 [] st1
      { offset := 5, error_code := .none } rfl⟩

/-- Claim C2: `_loaded_offset` is monotonically non-decreasing:
`advance_offset_inner` stores the maximum of the previous value and its
argument, and every operation of the writer (apply-and-advance, catch-up
consumption, `wait_for`, the four sequenced write closures and permanent
deletion) leaves the loaded offset at least where it was. -/
theorem C2_loaded_offset_monotone :
    (∀ l o : Offset, advance_offset_inner l o = max l o) ∧
    (∀ (st : SeqWriterState) (off : Offset) (k : SRKey) (v : Option SRValue),
        st.loaded_offset ≤ (st.applyAndAdvance off k v).loaded_offset) ∧
    (∀ (st : SeqWriterState) (recs : List (Offset × Record)),
        st.loaded_offset ≤ (consume_records st recs).loaded_offset) ∧
    (∀ (log : List Record) (off : Offset) (st : SeqWriterState),
        st.loaded_offset ≤ (wait_for log off st).loaded_offset) ∧
    (∀ (nodeId : NodeId) (sub : Subject) (defn : SchemaDef) (type : SchemaType)
        (w : Offset) (st : SeqWriterState) (resp : partition_produce_response)
        (r : Option SchemaId) (st2 : SeqWriterState) (b : Option Record),
        write_subject_version_do_write nodeId sub defn type w st resp = .ok (r, st2, b) →
        st.loaded_offset ≤ st2.loaded_offset) ∧
    (∀ (nodeId : NodeId) (sub : Option Subject) (compat : CompatibilityLevel)
        (w : Offset) (st : SeqWriterState) (resp : partition_produce_response)
        (r : Option Bool) (st2 : SeqWriterState) (b : Option Record),
        write_config_do_write nodeId sub compat w st resp = .ok (r, st2, b) →
        st.loaded_offset ≤ st2.loaded_offset) ∧
    (∀ (nodeId : NodeId) (sub : Subject) (version : SchemaVersion)
        (w : Offset) (st : SeqWriterState) (resp : partition_produce_response)
        (r : Option Bool) (st2 : SeqWriterState) (b : Option Record),
        delete_subject_version_do_write nodeId sub version w st resp = .ok (r, st2, b) →
        st.loaded_offset ≤ st2.loaded_offset) ∧
    (∀ (nodeId : NodeId) (sub : Subject)
        (w : Offset) (st : SeqWriterState) (resp : partition_produce_response)
        (r : Option (List SchemaVersion)) (st2 : SeqWriterState) (b : Option Record),
        delete_subject_impermanent_do_write nodeId sub w st resp = .ok (r, st2, b) →
        st.loaded_offset ≤ st2.loaded_offset) ∧
    (∀ (sub : Subject) (version : Option SchemaVersion) (st : SeqWriterState)
        (resp : partition_produce_response) (vs : List SchemaVersion)
        (st2 : SeqWriterState) (keys : List SRKey),
        delete_subject_permanent_inner sub version st resp = .ok (vs, st2, keys) →
        st.loaded_offset ≤ st2.loaded_offset) := by
  have happ : ∀ (st : SeqWriterState) (off : Offset) (k : SRKey) (v : Option SRValue),
      st.loaded_offset ≤ (st.applyAndAdvance off k v).loaded_offset := by
    intro st off k v
    rw [applyAndAdvance_loaded]
    exact le_advance_offset_inner _ _
  refine ⟨advance_offset_inner_eq_max, happ, fun st recs => consume_records_mono recs st,
    ?_, ?_, ?_, ?_, ?_, ?_⟩
  · intro log off st
    unfold wait_for
    split
    · exact consume_records_mono _ st
    · exact le_refl _
  · intro nodeId sub defn type w st resp r st2 b h
    cases hins : (st.store.project_ids sub defn type).inserted with
    | false =>
        simp only [write_subject_version_do_write, hins, Bool.not_false, if_true,
          Except.ok.injEq, Prod.mk.injEq] at h
        rw [← h.2.1]
    | true =>
        cases hpc : produce_and_check w resp with
        | error e => simp [write_subject_version_do_write, hins, hpc] at h
        | ok landed =>
            cases landed with
            | true =>
                simp only [write_subject_version_do_write, hins, Bool.not_true,
                  Bool.false_eq_true, if_false, hpc, Except.ok.injEq, Prod.mk.injEq] at h
                rw [← h.2.1]
                exact happ ..
            | false =>
                simp only [write_subject_version_do_write, hins, Bool.not_true,
                  Bool.false_eq_true, if_false, hpc, Except.ok.injEq, Prod.mk.injEq] at h
                rw [← h.2.1]
  · intro nodeId sub compat w st resp r st2 b h
    by_cases hex : st.store.get_compatibility sub = compat
    · simp only [write_config_do_write, if_pos hex, Except.ok.injEq, Prod.mk.injEq] at h
      rw [← h.2.1]
    · cases hpc : produce_and_check w resp with
      | error e => simp [write_config_do_write, if_neg hex, hpc] at h
      | ok landed =>
          cases landed with
          | true =>
              simp only [write_config_do_write, if_neg hex, hpc, Except.ok.injEq,
                Prod.mk.injEq] at h
              rw [← h.2.1]
              exact happ ..
          | false =>
              simp only [write_config_do_write, if_neg hex, hpc, Except.ok.injEq,
                Prod.mk.injEq] at h
              rw [← h.2.1]
  · intro nodeId sub version w st resp r st2 b h
    cases hgs : st.store.get_subject_schema sub version true with
    | error e => simp [delete_subject_version_do_write, hgs] at h
    | ok ss =>
        cases hpc : produce_and_check w resp with
        | error e => simp [delete_subject_version_do_write, hgs, hpc] at h
        | ok landed =>
            cases landed with
            | true =>
                simp only [delete_subject_version_do_write, hgs, hpc, Except.ok.injEq,
                  Prod.mk.injEq] at h
                rw [← h.2.1]
                exact happ ..
            | false =>
                simp only [delete_subject_version_do_write, hgs, hpc, Except.ok.injEq,
                  Prod.mk.injEq] at h
                rw [← h.2.1]
  · intro nodeId sub w st resp r st2 b h
    cases hgv : st.store.get_versions sub true with
    | error e => simp [delete_subject_impermanent_do_write, hgv] at h
    | ok versions =>
        cases hdel : st.store.is_subject_deleted sub with
        | true =>
            simp only [delete_subject_impermanent_do_write, hgv, hdel, if_true,
              Except.ok.injEq, Prod.mk.injEq] at h
            rw [← h.2.1]
        | false =>
            cases hlast : versions.getLast? with
            | none => simp [delete_subject_impermanent_do_write, hgv, hdel, hlast] at h
            | some version =>
                cases hpc : produce_and_check w resp with
                | error e =>
                    simp [delete_subject_impermanent_do_write, hgv, hdel, hlast, hpc] at h
                | ok landed =>
                    cases landed with
                    | true =>
                        simp only [delete_subject_impermanent_do_write, hgv, hdel,
                          Bool.false_eq_true, if_false, hlast, hpc, Except.ok.injEq,
                          Prod.mk.injEq] at h
                        rw [← h.2.1]
                        exact happ ..
                    | false =>
                        simp only [delete_subject_impermanent_do_write, hgv, hdel,
                          Bool.false_eq_true, if_false, hlast, hpc, Except.ok.injEq,
                          Prod.mk.injEq] at h
                        rw [← h.2.1]
  · intro sub version st resp vs st2 keys h
    unfold delete_subject_permanent_inner at h
    split at h
    · exact Except.noConfusion h
    · split at h
      · exact Except.noConfusion h
      · split at h
        · exact Except.noConfusion h
        · rw [Except.ok.injEq, Prod.mk.injEq, Prod.mk.injEq] at h
          rw [← h.2.1, replay_tombstones_eq_consume]
          exact consume_records_mono _ st

/-- Witness for C2 at concrete inputs: a successful config write from
`st1` does not decrease the loaded offset. -/
theorem C2_loaded_offset_monotone_witness :
    st1.loaded_offset ≤
      (st1.applyAndAdvance 1 (.config { seq := 1, node := 0, sub := Option.none })
        (some (.config { compat := .full }))).loaded_offset :=
  C2_loaded_offset_monotone.2.2.2.2.2.1 0 Option.none CompatibilityLevel.full 1 st1 respOk1
    (some true)
    (st1.applyAndAdvance 1 (.config { seq := 1, node := 0, sub := Option.none })
      (some (.config { compat := .full })))
    (some (.config { seq := 1, node := 0, sub := Option.none },
      some (.config { compat := .full })))
    (by rfl)

/-- A successful `produce_and_check` means the produce error code was
`none` and the returned flag is exactly the offset comparison. -/
theorem produce_and_check_ok (w : Offset) (resp : partition_produce_response) (tv : Bool)
    (h : produce_and_check w resp = .ok tv) :
    resp.error_code = kafka_error_code.none ∧ ((resp.base_offset == w) = tv) := by
  unfold produce_and_check at h
  split at h
  · exact Except.noConfusion h
  · rename_i hne
    refine ⟨not_ne_iff.mp hne, ?_⟩
    injection h

/-- Claim C6: `write_config` is a no-op returning `false` when the
existing compatibility (per-subject or global) already equals the
requested level; it returns `true` exactly when its record was written
and landed at the predicted offset; and a successful write followed by
the same call returns `true` then `false`, the second call producing
nothing. -/
theorem C6_write_config_noop :
    (∀ (nodeId : NodeId) (sub : Option Subject) (compat : CompatibilityLevel)
        (w : Offset) (st : SeqWriterState) (resp : partition_produce_response),
        st.store.get_compatibility sub = compat →
        write_config_do_write nodeId sub compat w st resp = .ok (some false, st, Option.none)) ∧
    (∀ (nodeId : NodeId) (sub : Option Subject) (compat : CompatibilityLevel)
        (w : Offset) (st : SeqWriterState) (resp : partition_produce_response)
        (r : Option Bool) (st2 : SeqWriterState) (b : Option Record),
        write_config_do_write nodeId sub compat w st resp = .ok (r, st2, b) →
        (r = some true ↔ b ≠ Option.none ∧ resp.base_offset = w)) ∧
    (∀ (nodeId : NodeId) (sub : Option Subject) (compat : CompatibilityLevel)
        (w : Offset) (st : SeqWriterState) (resp : partition_produce_response),
        st.store.get_compatibility sub ≠ compat →
        resp.error_code = kafka_error_code.none →
        resp.base_offset = w →
        write_config_do_write nodeId sub compat w st resp
          = .ok (some true,
              st.applyAndAdvance w (.config { seq := w, node := nodeId, sub := sub })
                (some (.config { compat := compat })),
              some (.config { seq := w, node := nodeId, sub := sub },
                some (.config { compat := compat }))) ∧
        (∀ (w2 : Offset) (resp2 : partition_produce_response),
          write_config_do_write nodeId sub compat w2
              (st.applyAndAdvance w (.config { seq := w, node := nodeId, sub := sub })
                (some (.config { compat := compat }))) resp2
            = .ok (some false,
                st.applyAndAdvance w (.config { seq := w, node := nodeId, sub := sub })
                  (some (.config { compat := compat })),
                Option.none))) := by
  refine ⟨?_, ?_, ?_⟩
  · intro nodeId sub compat w st resp h
    simp only [write_config_do_write, if_pos h]
  · intro nodeId sub compat w st resp r st2 b h
    by_cases hex : st.store.get_compatibility sub = compat
    · simp only [write_config_do_write, if_pos hex, Except.ok.injEq, Prod.mk.injEq] at h
      rw [← h.1, ← h.2.2]
      simp
    · cases hpc : produce_and_check w resp with
      | error e => simp [write_config_do_write, if_neg hex, hpc] at h
      | ok landed =>
          obtain ⟨herr, hbeq⟩ := produce_and_check_ok w resp landed hpc
          cases landed with
          | true =>
              simp only [write_config_do_write, if_neg hex, hpc, Except.ok.injEq,
                Prod.mk.injEq] at h
              rw [← h.1, ← h.2.2]
              simp only [Option.some.injEq, true_iff]
              exact ⟨by simp, eq_of_beq hbeq⟩
          | false =>
              simp only [write_config_do_write, if_neg hex, hpc, Except.ok.injEq,
                Prod.mk.injEq] at h
              rw [← h.1]
              refine ⟨fun habs => Option.noConfusion habs, fun hr => ?_⟩
              rw [hr.2] at hbeq
              simp at hbeq
  · intro nodeId sub compat w st resp hex herr hbase
    constructor
    · simp [write_config_do_write, if_neg hex, produce_and_check, herr, hbase]
    · intro w2 resp2
      have hc : (st.applyAndAdvance w (.config { seq := w, node := nodeId, sub := sub })
          (some (.config { compat := compat }))).store.get_compatibility sub = compat :=
        get_compatibility_after_apply st.store w w nodeId sub compat
      simp only [write_config_do_write, if_pos hc]

/-- Witness for C6: setting the global compatibility to `full` from the
fixture state returns `true`, and repeating the call returns `false`
without producing anything. -/
theorem C6_write_config_noop_witness :
    write_config_do_write 0 Option.none CompatibilityLevel.full 1 st1 respOk1
      = .ok (some true,
          st1.applyAndAdvance 1 (.config { seq := 1, node := 0, sub := Option.none })
            (some (.config { compat := CompatibilityLevel.full })),
          some (.config { seq := 1, node := 0, sub := Option.none },
            some (.config { compat := CompatibilityLevel.full }))) ∧
    write_config_do_write 0 Option.none CompatibilityLevel.full 2
        (st1.applyAndAdvance 1 (.config { seq := 1, node := 0, sub := Option.none })
          (some (.config { compat := CompatibilityLevel.full }))) respOk7
      = .ok (some false,
          st1.applyAndAdvance 1 (.config { seq := 1, node := 0, sub := Option.none })
            (some (.config { compat := CompatibilityLevel.full })),
          Option.none) :=
  ⟨(C6_write_config_noop.2.2 0 Option.none CompatibilityLevel.full 1 st1 respOk1
      (by decide) rfl rfl).1,
   (C6_write_config_noop.2.2 0 Option.none CompatibilityLevel.full 1 st1 respOk1
      (by decide) rfl rfl).2 2 respOk7⟩

/-- Claim C3: `delete_subject_permanent` queries the store for the
sequence markers of the subject (or subject-version), builds exactly one
tombstone per marker with the marker's original seq, node and key type,
requires the batch non-empty, produces it without any offset check, and
replays the tombstones locally at consecutive offsets
`base_offset, base_offset + 1, ...`, advancing the loaded offset after
each one. -/
theorem C3_delete_subject_permanent_tombstone_batch
    (sub : Subject) (version : Option SchemaVersion) (st : SeqWriterState)
    (resp : partition_produce_response) (sequences : List seq_marker)
    (hseq : (match version with
             | some v => st.store.get_subject_version_written_at sub v
             | Option.none => st.store.get_subject_written_at sub) = .ok sequences)
    (hne : sequences ≠ [])
    (herr : resp.error_code = kafka_error_code.none) :
    delete_subject_permanent_inner sub version st resp
      = .ok ([], replay_tombstones st resp.base_offset (sequences.map (tombstone_key sub)),
          sequences.map (tombstone_key sub)) ∧
    sequences.map (tombstone_key sub) ≠ [] ∧
    replay_tombstones st resp.base_offset (sequences.map (tombstone_key sub))
      = consume_records st
          (tombstone_offsets resp.base_offset (sequences.map (tombstone_key sub))) ∧
    (∀ (base : Offset) (keys : List SRKey) (i : Nat),
      (tombstone_offsets base keys)[i]?
        = keys[i]?.map (fun k => (base + (i : Int), (k, (Option.none : Option SRValue))))) := by
  have hne2 : ¬(((sequences.map (tombstone_key sub)).isEmpty) = true) := by
    rw [List.isEmpty_iff, List.map_eq_nil_iff]
    exact hne
  refine ⟨?_, ?_, replay_tombstones_eq_consume _ _ _,
    fun base keys i => tombstone_offsets_getElem? keys base i⟩
  · unfold delete_subject_permanent_inner
    simp only [hseq]
    rw [if_neg hne2, if_neg (not_not_intro herr)]
  · rw [ne_eq, List.map_eq_nil_iff]
    exact hne

/-- Witness for C3: permanently deleting subject s1 from the fixture
state tombstones its one marker and replays it at the base offset. -/
theorem C3_delete_subject_permanent_tombstone_batch_witness :
    delete_subject_permanent_inner "s1" Option.none st1 respOk1
      = .ok ([], replay_tombstones st1 1 [tombstone_key "s1" markerA],
          [tombstone_key "s1" markerA]) :=
  (C3_delete_subject_permanent_tombstone_batch "s1" Option.none st1 respOk1 [markerA]
    rfl (by decide) rfl).1

/-- Claim C1: every sequenced mutating operation predicts
`write_at = loaded_offset + 1` (first conjunct: each attempt of the
sequenced-write loop runs the closure at the caught-up state's loaded
offset plus one), produces its record with `seq = write_at`, and succeeds
exactly when the produce response's base offset equals `write_at`: on
equality it applies the record locally, advances the loaded offset and
returns a concrete success value; on inequality it returns the retry
sentinel with the state unchanged.  Stated for all four closures:
`write_subject_version`, `write_config`, `delete_subject_version` and
`delete_subject_impermanent`. -/
theorem C1_sequenced_write_produce_check :
    (∀ (α : Type)
        (f : Nat → Offset → SeqWriterState → Except SRError (Option α × SeqWriterState))
        (cu : Nat → SeqWriterState → SeqWriterState) (budget k : Nat) (st : SeqWriterState),
        sequenced_write_go f cu (budget + 1) k st =
          match f k ((cu k st).loaded_offset + 1) (cu k st) with
          | .error e => .error e
          | .ok (some a, _) => .ok a
          | .ok (Option.none, st2) => sequenced_write_go f cu budget (k + 1) st2) ∧
    (∀ (nodeId : NodeId) (sub : Subject) (defn : SchemaDef) (type : SchemaType)
        (w : Offset) (st : SeqWriterState) (resp : partition_produce_response),
        (st.store.project_ids sub defn type).inserted = true →
        resp.error_code = kafka_error_code.none →
        keySeq (wsv_record nodeId sub defn type
            (st.store.project_ids sub defn type).id
            (st.store.project_ids sub defn type).version w).1 = w ∧
        (resp.base_offset = w →
          write_subject_version_do_write nodeId sub defn type w st resp
            = .ok (some (st.store.project_ids sub defn type).id,
                st.applyAndAdvance w
                  (wsv_record nodeId sub defn type
                    (st.store.project_ids sub defn type).id
                    (st.store.project_ids sub defn type).version w).1
                  (wsv_record nodeId sub defn type
                    (st.store.project_ids sub defn type).id
                    (st.store.project_ids sub defn type).version w).2,
                some (wsv_record nodeId sub defn type
                  (st.store.project_ids sub defn type).id
                  (st.store.project_ids sub defn type).version w))) ∧
        (resp.base_offset ≠ w →
          write_subject_version_do_write nodeId sub defn type w st resp
            = .ok (Option.none, st,
                some (wsv_record nodeId sub defn type
                  (st.store.project_ids sub defn type).id
                  (st.store.project_ids sub defn type).version w)))) ∧
    (∀ (nodeId : NodeId) (sub : Option Subject) (compat : CompatibilityLevel)
        (w : Offset) (st : SeqWriterState) (resp : partition_produce_response),
        st.store.get_compatibility sub ≠ compat →
        resp.error_code = kafka_error_code.none →
        keySeq (wc_record nodeId sub compat w).1 = w ∧
        (resp.base_offset = w →
          write_config_do_write nodeId sub compat w st resp
            = .ok (some true,
                st.applyAndAdvance w (wc_record nodeId sub compat w).1
                  (wc_record nodeId sub compat w).2,
                some (wc_record nodeId sub compat w))) ∧
        (resp.base_offset ≠ w →
          write_config_do_write nodeId sub compat w st resp
            = .ok (Option.none, st, some (wc_record nodeId sub compat w)))) ∧
    (∀ (nodeId : NodeId) (sub : Subject) (version : SchemaVersion)
        (w : Offset) (st : SeqWriterState) (resp : partition_produce_response)
        (ss : subject_schema),
        st.store.get_subject_schema sub version true = .ok ss →
        resp.error_code = kafka_error_code.none →
        keySeq (dsv_record nodeId sub version ss w).1 = w ∧
        (resp.base_offset = w →
          delete_subject_version_do_write nodeId sub version w st resp
            = .ok (some true,
                st.applyAndAdvance w (dsv_record nodeId sub version ss w).1
                  (dsv_record nodeId sub version ss w).2,
                some (dsv_record nodeId sub version ss w))) ∧
        (resp.base_offset ≠ w →
          delete_subject_version_do_write nodeId sub version w st resp
            = .ok (Option.none, st, some (dsv_record nodeId sub version ss w)))) ∧
    (∀ (nodeId : NodeId) (sub : Subject)
        (w : Offset) (st : SeqWriterState) (resp : partition_produce_response)
        (versions : List SchemaVersion) (last : SchemaVersion),
        st.store.get_versions sub true = .ok versions →
        st.store.is_subject_deleted sub = false →
        versions.getLast? = some last →
        resp.error_code = kafka_error_code.none →
        keySeq (dsi_record nodeId sub last w).1 = w ∧
        (resp.base_offset = w →
          delete_subject_impermanent_do_write nodeId sub w st resp
            = .ok (some versions,
                st.applyAndAdvance w (dsi_record nodeId sub last w).1
                  (dsi_record nodeId sub last w).2,
                some (dsi_record nodeId sub last w))) ∧
        (resp.base_offset ≠ w →
          delete_subject_impermanent_do_write nodeId sub w st resp
            = .ok (Option.none, st, some (dsi_record nodeId sub last w)))) := by
  refine ⟨fun α f cu budget k st => sequenced_write_go_succ f cu budget k st,
    ?_, ?_, ?_, ?_⟩
  · intro nodeId sub defn type w st resp hins herr
    refine ⟨rfl, ?_, ?_⟩
    · intro hbase
      simp [write_subject_version_do_write, wsv_record, hins, produce_and_check,
        herr, hbase]
    · intro hbase
      simp [write_subject_version_do_write, wsv_record, hins, produce_and_check,
        herr, beq_eq_false_iff_ne.mpr hbase]
  · intro nodeId sub compat w st resp hex herr
    refine ⟨rfl, ?_, ?_⟩
    · intro hbase
      simp [write_config_do_write, wc_record, if_neg hex, produce_and_check, herr, hbase]
    · intro hbase
      simp [write_config_do_write, wc_record, if_neg hex, produce_and_check, herr,
        beq_eq_false_iff_ne.mpr hbase]
  · intro nodeId sub version w st resp ss hgs herr
    refine ⟨rfl, ?_, ?_⟩
    · intro hbase
      simp [delete_subject_version_do_write, dsv_record, hgs, produce_and_check,
        herr, hbase]
    · intro hbase
      simp [delete_subject_version_do_write, dsv_record, hgs, produce_and_check,
        herr, beq_eq_false_iff_ne.mpr hbase]
  · intro nodeId sub w st resp versions last hgv hdel hlast herr
    refine ⟨rfl, ?_, ?_⟩
    · intro hbase
      simp [delete_subject_impermanent_do_write, dsi_record, hgv, hdel, hlast,
        produce_and_check, herr, hbase]
    · intro hbase
      simp [delete_subject_impermanent_do_write, dsi_record, hgv, hdel, hlast,
        produce_and_check, herr, beq_eq_false_iff_ne.mpr hbase]

/-- Witness for C1: registering a fresh subject from the empty store with
a produce response landing at the predicted offset 0 succeeds and applies
the record. -/
theorem C1_sequenced_write_produce_check_witness :
    write_subject_version_do_write 0 "snew" "D" SchemaType.avro 0 st0 respOk0
      = .ok (some (st0.store.project_ids "snew" "D" SchemaType.avro).id,
          st0.applyAndAdvance 0
            (wsv_record 0 "snew" "D" SchemaType.avro
              (st0.store.project_ids "snew" "D" SchemaType.avro).id
              (st0.store.project_ids "snew" "D" SchemaType.avro).version 0).1
            (wsv_record 0 "snew" "D" SchemaType.avro
              (st0.store.project_ids "snew" "D" SchemaType.avro).id
              (st0.store.project_ids "snew" "D" SchemaType.avro).version 0).2,
          some (wsv_record 0 "snew" "D" SchemaType.avro
            (st0.store.project_ids "snew" "D" SchemaType.avro).id
            (st0.store.project_ids "snew" "D" SchemaType.avro).version 0)) :=
  (C1_sequenced_write_produce_check.2.1 0 "snew" "D" SchemaType.avro 0 st0 respOk0
    rfl rfl).2.1 rfl

end SchemaRegistry
